import Mathlib

/-!
# Verification of the HDR exposure-bracketing capture script (`src/HDR.py`)

Shallow embedding of the script's pure logic:

* Python floats are modelled as real numbers (`ℝ`); `math.pow` is real
  exponentiation (`Real.rpow`); Python `int()` is truncation toward zero.
* `configure_exposure`, the capture loop of `acquire_images`,
  `run_single_camera`, `main` and the `__main__` block are modelled as pure
  functions over an explicit camera state, the parsed command-line arguments
  and an oracle describing the vendor API's per-call behaviour
  (exceptions, incomplete frames, access modes).  Their filesystem and
  device side effects are recorded as an explicit event trace.
* Filenames are modelled as lists of characters; Python's `str.split` and
  `float()` (on the strings this program produces) are implemented directly.
-/

namespace HDR

/-- Embedding of `log_map_0_1` (HDR.py, lines 71-72): map `x` in `[0, 1]`
to a log scale between `m` and `M`, `min * math.pow(max / min, x)`. -/
noncomputable def log_map_0_1 (x m M : ℝ) : ℝ := m * (M / m) ^ x

/-- Python `int(x)` on a float: truncation toward zero. -/
noncomputable def py_int (x : ℝ) : ℤ := if x < 0 then ⌈x⌉ else ⌊x⌋

/-- The parsed command-line arguments (HDR.py, lines 47-57). `dirname` is
not needed by any pure computation and is omitted. -/
structure Args where
  num_images : ℕ
  gain : ℝ
  exp_min : ℝ
  exp_max : ℝ

/-- The camera state visible to the script through the vendor API:
hardware exposure limits (`ExposureTime.GetMin/GetMax`), the exposure value
current before the capture loop (`ExposureTime.GetValue` at HDR.py line 270),
the access modes the script checks, and whether the calls that the script
wraps in `try` blocks raise a vendor exception. -/
structure Cam where
  hw_exp_min : ℝ
  hw_exp_max : ℝ
  cur_exposure : ℝ
  exposure_auto_rw : Bool
  exposure_time_rw : Bool
  exposure_time_readable : Bool
  acq_mode_rw : Bool
  device_info_ok : Bool
  reset_ok : Bool
  init_raises : Bool

/-- Result of `configure_exposure` (HDR.py, lines 75-158): on success the
Python function returns `int(exposure_time_to_set)` (the value interpolated
into the filename) after applying `exposure_time_to_set` to the sensor and
gain `1` to the gain node; on an access-mode check failure or a caught
`SpinnakerException` it returns the boolean `False`. -/
inductive ConfigResult where
  | applied (filenameVal : ℤ) (sensorVal : ℝ) (gainVal : ℝ)
  | failed

/-- Embedding of `configure_exposure` (HDR.py, lines 75-158).  `raises`
models a `PySpin.SpinnakerException` escaping from the vendor calls inside
the `try` block (caught at line 154, making the function return `False`).
The success path: working bounds `exp_min = max(cam_exp_min, args.exp_min)`,
`exp_max = min(cam_exp_max, args.exp_max)` (lines 136-138); the log mapping
for requests `exposure <= 1` (lines 140-141); `int()` truncation (line 143);
the final clamp `min(cam.ExposureTime.GetMax(), exposure)` (line 148),
applied to the sensor (line 149) and returned as `int` (line 152). -/
noncomputable def configure_exposure (cam : Cam) (args : Args) (raises : Bool)
    (exposure : ℝ) : ConfigResult :=
  if raises then .failed
  else if !cam.exposure_auto_rw then .failed
  else if !cam.exposure_time_rw then .failed
  else
    let exp_min := max cam.hw_exp_min args.exp_min
    let exp_max := min cam.hw_exp_max args.exp_max
    let e1 := if exposure ≤ 1 then log_map_0_1 exposure exp_min exp_max else exposure
    let e2 := py_int e1
    let exposure_time_to_set := min cam.hw_exp_max (e2 : ℝ)
    .applied (py_int exposure_time_to_set) exposure_time_to_set 1

/-- Character for a decimal digit `d < 10`. -/
def digitChar (d : ℕ) : Char := Char.ofNat (48 + d)

/-- Python `str(n)` for a natural number: big-endian decimal digits. -/
def natChars (n : ℕ) : List Char :=
  if n = 0 then ['0'] else ((Nat.digits 10 n).map digitChar).reverse

/-- Python `str(v)` for an `int`. -/
def intChars (v : ℤ) : List Char :=
  if v < 0 then '-' :: natChars v.natAbs else natChars v.toNat

/-- Worker for `pySplit`: accumulates the current field (reversed). -/
def splitGo (sep : Char) : List Char → List Char → List (List Char)
  | [], acc => [acc.reverse]
  | c :: cs, acc =>
    if c = sep then acc.reverse :: splitGo sep cs [] else splitGo sep cs (c :: acc)

/-- Python `s.split(sep)` for a single-character separator (the script only
splits on `"_"` and `"."`). -/
def pySplit (sep : Char) (l : List Char) : List (List Char) := splitGo sep l []

/-- Numeric value of a digit character. -/
def charVal (c : Char) : ℕ := c.toNat - 48

/-- Python `float(s)` restricted to the strings this program feeds it: the
filename field is either an unsigned decimal integer string (accepted, with
its numeric value) or a non-numeric string such as `"False"`, on which
`float` raises `ValueError` (`none`). -/
def pyFloatDigits (l : List Char) : Option ℕ :=
  if l ≠ [] ∧ ∀ c ∈ l, c.isDigit then
    some (Nat.ofDigits 10 ((l.map charVal).reverse))
  else none

/-- Embedding of the per-filename parse in `create_HDR` (HDR.py, line 427):
`float(i.split("_")[1].split(".")[0])`.  A missing field (Python
`IndexError`) is modelled by the empty default, which `pyFloatDigits`
rejects. -/
def parse_time (name : List Char) : Option ℕ :=
  pyFloatDigits ((pySplit '.' ((pySplit '_' name).getD 1 [])).getD 0 [])

/-- The fusion phase's `times` array construction (HDR.py, line 427)
succeeds if and only if every filename in the directory listing parses to a
number; otherwise `float` raises an uncaught `ValueError` and `create_HDR`
aborts. -/
def create_HDR_ok (names : List (List Char)) : Bool :=
  names.all (fun n => (parse_time n).isSome)

/-- The filename built at HDR.py line 311, `f'exp_{exposure}_us.jpg'`, where
`exposure` is whatever `configure_exposure` returned: an `int` on success or
the boolean `False` (rendered `"False"`) on failure. -/
def filename_of (r : ConfigResult) : List Char :=
  "exp_".data ++
    (match r with
      | .applied v _ _ => intChars v
      | .failed => "False".data) ++
    "_us.jpg".data

/-- Observable side effects of a run: filesystem operations in the output
directory, sensor parameter writes, blocking next-frame calls (with the
timeout passed to `GetNextImage`), the re-enabling of automatic exposure,
and the fusion phase's output files. -/
inductive Ev where
  | mkdirOut
  | removeFile (name : List Char)
  | setExposure (v : ℝ)
  | getNext (timeout : ℤ)
  | save (name : List Char)
  | resetExposure
  | hdrOutputs

/-- Recognizes a blocking `GetNextImage` call in a trace. -/
def is_getNext : Ev → Bool
  | .getNext _ => true
  | _ => false

/-- Recognizes a frame-persist event in a trace. -/
def is_save : Ev → Bool
  | .save _ => true
  | _ => false

/-- Recognizes a file deletion in a trace. -/
def is_remove : Ev → Bool
  | .removeFile _ => true
  | _ => false

/-- Vendor-API behaviour during one iteration of the capture loop:
whether `configure_exposure`'s vendor calls raise (caught inside it),
whether a `GetNextImage` call raises (caught by the per-frame handler at
HDR.py line 321), and whether the delivered frame reports incomplete. -/
structure FrameEnv where
  cfg_raises : Bool
  get_raises : Bool
  incomplete : Bool

/-- The capture loop's exposure schedule (HDR.py, line 293):
`(i + 1) / NUM_IMAGES`. -/
noncomputable def schedule (n i : ℕ) : ℝ := ((i : ℝ) + 1) / (n : ℝ)

/-- One iteration of the capture loop (HDR.py, lines 287-323): configure the
exposure for this frame (line 293), call `GetNextImage` three times with the
same pre-computed timeout, discarding the first two results (lines 294-296);
if the frame is incomplete it is only logged and dropped (lines 298-299);
otherwise the converted image is saved under the filename built from
`configure_exposure`'s return value (lines 308-314).  A vendor exception
from `GetNextImage` (modelled as raised by the first call) is caught by the
per-frame handler (lines 321-323), which sets the failure flag and lets the
loop continue; an incomplete frame leaves the flag untouched. -/
noncomputable def frame_events (cam : Cam) (args : Args) (timeout : ℤ) (i : ℕ)
    (fe : FrameEnv) : List Ev × Bool :=
  let cfg := configure_exposure cam args fe.cfg_raises (schedule args.num_images i)
  let cfgEvs := match cfg with
    | .applied _ s _ => [Ev.setExposure s]
    | .failed => []
  if fe.get_raises then (cfgEvs ++ [Ev.getNext timeout], false)
  else if fe.incomplete then
    (cfgEvs ++ [Ev.getNext timeout, Ev.getNext timeout, Ev.getNext timeout], true)
  else
    (cfgEvs ++ [Ev.getNext timeout, Ev.getNext timeout, Ev.getNext timeout,
      Ev.save (filename_of cfg)], true)

/-- The capture loop, iterated over frame indices `0, …, n-1`, threading the
accumulated event trace and the boolean result flag. -/
noncomputable def capture_loop (cam : Cam) (args : Args) (timeout : ℤ)
    (fes : ℕ → FrameEnv) : ℕ → List Ev × Bool
  | 0 => ([], true)
  | n + 1 =>
    let prev := capture_loop cam args timeout fes n
    let step := frame_events cam args timeout n (fes n)
    (prev.1 ++ step.1, prev.2 && step.2)

/-- Embedding of `acquire_images` (HDR.py, lines 231-332): the acquisition
mode must be writable (line 247) and the exposure time readable
(`RW or RO`, line 268); the `GetNextImage` timeout is computed ONCE, before
the loop, from the exposure time read at that moment:
`int(ExposureTime.GetValue() / 1000 + 1000)` (line 270); then the capture
loop runs for `NUM_IMAGES` iterations. -/
noncomputable def acquire_images (cam : Cam) (args : Args)
    (fes : ℕ → FrameEnv) : List Ev × Bool :=
  if !cam.acq_mode_rw then ([], false)
  else if !(cam.exposure_time_rw || cam.exposure_time_readable) then ([], false)
  else
    capture_loop cam args (py_int (cam.cur_exposure / 1000 + 1000)) fes
      args.num_images

/-- Embedding of `run_single_camera` (HDR.py, lines 335-365): initialize,
print device info, acquire images, then ALWAYS invoke `reset_exposure`
(line 356) before deinitializing, whatever booleans the earlier steps
returned; the three results are and-ed together.  Only an exception from
`cam.Init()` itself (caught by the function-level handler) skips the rest. -/
noncomputable def run_single_camera (cam : Cam) (args : Args)
    (fes : ℕ → FrameEnv) : List Ev × Bool :=
  if cam.init_raises then ([], false)
  else
    let acq := acquire_images cam args fes
    (acq.1 ++ [Ev.resetExposure], cam.device_info_ok && acq.2 && cam.reset_ok)

/-- Embedding of `main` (HDR.py, lines 368-420): with zero cameras detected
the function returns `False` without touching the output directory;
otherwise the single camera is run. -/
noncomputable def main_run (numCameras : ℕ) (cam : Cam) (args : Args)
    (fes : ℕ → FrameEnv) : List Ev × Bool :=
  if numCameras = 0 then ([], false)
  else run_single_camera cam args fes

/-- Filenames persisted during a run, in order; after the pre-capture wipe
these are exactly the files `create_HDR` finds in the directory listing. -/
def saved_names (evs : List Ev) : List (List Char) :=
  evs.filterMap (fun e => match e with | .save n => some n | _ => none)

/-- Embedding of the `__main__` block (HDR.py, lines 466-481): the output
directory is created if missing (line 468, `FileExistsError` swallowed) and
every existing file in it is removed (lines 474-475) BEFORE `main()` runs;
if `main()` is truthy, `create_HDR()` runs — modelled through its
filename-parsing success — and the process exits 0; a filename `float()`
cannot parse raises an uncaught `ValueError`, terminating with a nonzero
status (1); a falsy `main()` exits 1.  The module-level
`mkdir("images")`/`chdir` (lines 60-63) touch the parent directory, not the
output directory, and are not recorded. -/
noncomputable def program (preFiles : List (List Char)) (numCameras : ℕ)
    (cam : Cam) (args : Args) (fes : ℕ → FrameEnv) : List Ev × ℕ :=
  let pre := Ev.mkdirOut :: preFiles.map Ev.removeFile
  let m := main_run numCameras cam args fes
  if m.2 then
    if create_HDR_ok (saved_names m.1) then (pre ++ m.1 ++ [Ev.hdrOutputs], 0)
    else (pre ++ m.1, 1)
  else (pre ++ m.1, 1)

/-- A concrete healthy camera: hardware exposure range `[1, 1000000]` µs,
exposure `5000` µs current before the capture loop, every node accessible,
no vendor exceptions. -/
noncomputable def camW : Cam :=
  { hw_exp_min := 1, hw_exp_max := 1000000, cur_exposure := 5000,
    exposure_auto_rw := true, exposure_time_rw := true,
    exposure_time_readable := true, acq_mode_rw := true,
    device_info_ok := true, reset_ok := true, init_raises := false }

/-- Concrete arguments: `n` images, requested exposure range `[100, 10000]`. -/
noncomputable def argsStd (n : ℕ) : Args :=
  { num_images := n, gain := 1, exp_min := 100, exp_max := 10000 }

/-- A camera whose hardware-reported exposure maximum is fractional
(`99.5` µs), as the float-valued `ExposureTime.GetMax()` node permits. -/
noncomputable def cam4 : Cam := { camW with hw_exp_max := 199 / 2 }

/-- Arguments whose requested range `[1000, 10]` crosses the hardware range,
so the working bounds come out inverted. -/
noncomputable def args4 : Args :=
  { num_images := 2, gain := 1, exp_min := 1000, exp_max := 10 }

/-- Per-frame vendor behaviour: every frame succeeds. -/
def fes0 : ℕ → FrameEnv := fun _ => ⟨false, false, false⟩

/-- Per-frame vendor behaviour: frame 0's `GetNextImage` raises, later
frames succeed. -/
def fesFail : ℕ → FrameEnv := fun i =>
  if i = 0 then ⟨false, true, false⟩ else ⟨false, false, false⟩

/-- C1: for bounds `0 < exp_min < exp_max` and `x ∈ (0, 1]`, the exposure
mapping `log_map_0_1` stays inside `[exp_min, exp_max]`, and it is strictly
increasing in `x`. -/
theorem C1_log_map_bounded_strict_mono (m M x y : ℝ) (hm : 0 < m) (hmM : m < M)
    (hx0 : 0 < x) (hx1 : x ≤ 1) (hy1 : y ≤ 1) (hxy : x < y) :
    (m ≤ log_map_0_1 x m M ∧ log_map_0_1 x m M ≤ M) ∧
      log_map_0_1 x m M < log_map_0_1 y m M := by
  have hr : 1 < M / m := (one_lt_div hm).mpr hmM
  have h0 : (1 : ℝ) ≤ (M / m) ^ x := by
    have h := (Real.rpow_le_rpow_left_iff hr).mpr hx0.le
    simpa using h
  have h1 : (M / m) ^ x ≤ (M / m) ^ (1 : ℝ) := (Real.rpow_le_rpow_left_iff hr).mpr hx1
  refine ⟨⟨?_, ?_⟩, ?_⟩
  · have h := mul_le_mul_of_nonneg_left h0 hm.le
    simpa [log_map_0_1] using h
  · have h2 : m * (M / m) ^ x ≤ m * (M / m) := by
      have h := mul_le_mul_of_nonneg_left h1 hm.le
      simpa [Real.rpow_one] using h
    have h3 : m * (M / m) = M := by field_simp
    calc log_map_0_1 x m M = m * (M / m) ^ x := rfl
      _ ≤ m * (M / m) := h2
      _ = M := h3
  · have h := (Real.rpow_lt_rpow_left_iff hr).mpr hxy
    exact mul_lt_mul_of_pos_left h hm

/-- Witness for C1 at `exp_min = 100`, `exp_max = 10000`, `x = 1/2`, `y = 1`. -/
theorem C1_witness :
    ((0 : ℝ) < 100 ∧ (100 : ℝ) < 10000 ∧ (0 : ℝ) < 1 / 2 ∧ (1 / 2 : ℝ) ≤ 1 ∧
        (1 : ℝ) ≤ 1 ∧ (1 / 2 : ℝ) < 1) ∧
      ((100 ≤ log_map_0_1 (1 / 2) 100 10000 ∧ log_map_0_1 (1 / 2) 100 10000 ≤ 10000) ∧
        log_map_0_1 (1 / 2) 100 10000 < log_map_0_1 1 100 10000) :=
  ⟨⟨by norm_num, by norm_num, by norm_num, by norm_num, by norm_num, by norm_num⟩,
    C1_log_map_bounded_strict_mono 100 10000 (1 / 2) 1 (by norm_num) (by norm_num)
      (by norm_num) (by norm_num) (by norm_num) (by norm_num)⟩

/-- `int()` of a value that is already an integer is that integer. -/
theorem py_int_intCast (n : ℤ) : py_int ((n : ℤ) : ℝ) = n := by
  unfold py_int; split <;> simp

/-- `int()` of a nonnegative float is its floor. -/
theorem py_int_of_nonneg {x : ℝ} (hx : 0 ≤ x) : py_int x = ⌊x⌋ :=
  if_neg (not_lt.mpr hx)

/-- `int()` of a value equal to an integer. -/
theorem py_int_eq_of_int {x : ℝ} {n : ℤ} (h : x = (n : ℝ)) : py_int x = n :=
  h ▸ py_int_intCast n

/-- `int()` of a nonnegative float via its enclosing integer interval. -/
theorem py_int_eq_of_bounds {x : ℝ} {n : ℤ} (hn : 0 ≤ (n : ℝ))
    (h0 : (n : ℝ) ≤ x) (h1 : x < (n : ℝ) + 1) : py_int x = n := by
  rw [py_int_of_nonneg (hn.trans h0)]
  exact Int.floor_eq_iff.mpr ⟨h0, by exact_mod_cast h1⟩

/-- Unfolding of `configure_exposure`'s success path, with the working
bounds written out. -/
theorem configure_exposure_spec (cam : Cam) (args : Args) (x : ℝ)
    (h1 : cam.exposure_auto_rw = true) (h2 : cam.exposure_time_rw = true) :
    configure_exposure cam args false x =
      ConfigResult.applied
        (py_int (min cam.hw_exp_max
          ((py_int (if x ≤ 1 then
            log_map_0_1 x (max cam.hw_exp_min args.exp_min)
              (min cam.hw_exp_max args.exp_max) else x) : ℤ) : ℝ)))
        (min cam.hw_exp_max
          ((py_int (if x ≤ 1 then
            log_map_0_1 x (max cam.hw_exp_min args.exp_min)
              (min cam.hw_exp_max args.exp_max) else x) : ℤ) : ℝ))
        1 := by
  simp [configure_exposure, h1, h2]

/-- Inversion: everything a successful `configure_exposure` call tells us. -/
theorem configure_exposure_applied_inv (cam : Cam) (args : Args)
    (raises : Bool) (x : ℝ) (v : ℤ) (s g : ℝ)
    (h : configure_exposure cam args raises x = ConfigResult.applied v s g) :
    raises = false ∧ cam.exposure_auto_rw = true ∧
      cam.exposure_time_rw = true ∧ g = 1 ∧ v = py_int s ∧
      s = min cam.hw_exp_max
        ((py_int (if x ≤ 1 then
          log_map_0_1 x (max cam.hw_exp_min args.exp_min)
            (min cam.hw_exp_max args.exp_max) else x) : ℤ) : ℝ) := by
  by_cases hr : raises
  · simp [configure_exposure, hr] at h
  · by_cases ha : cam.exposure_auto_rw
    · by_cases ht : cam.exposure_time_rw
      · have hr2 : raises = false := by simpa using hr
        rw [hr2, configure_exposure_spec cam args x ha ht] at h
        injection h with hv hs hg
        subst hv; subst hs
        exact ⟨hr2, ha, ht, hg.symm, rfl, rfl⟩
      · simp [configure_exposure, hr, ha, ht] at h
    · simp [configure_exposure, hr, ha] at h

/-- C3: the working exposure bounds are the intersection of hardware limits
and the user-requested limits — `exp_min = max(hw_min, args.exp_min)`,
`exp_max = min(hw_max, args.exp_max)` — and the exposure actually applied
to the sensor never exceeds the hardware-reported maximum, for every
requested exposure value. -/
theorem C3_applied_never_exceeds_hw_max (cam : Cam) (args : Args)
    (raises : Bool) (x : ℝ) (v : ℤ) (s g : ℝ)
    (h : configure_exposure cam args raises x = ConfigResult.applied v s g) :
    s ≤ cam.hw_exp_max ∧ v = py_int s ∧
      s = min cam.hw_exp_max
        ((py_int (if x ≤ 1 then
          log_map_0_1 x (max cam.hw_exp_min args.exp_min)
            (min cam.hw_exp_max args.exp_max) else x) : ℤ) : ℝ) := by
  obtain ⟨-, -, -, -, hv, hs⟩ := configure_exposure_applied_inv cam args raises x v s g h
  exact ⟨hs ▸ min_le_left _ _, hv, hs⟩

/-- Witness for C3: a request of `2` µs (above the normalized range) on the
concrete camera is applied as `2 ≤ hw_max = 1000000`. -/
theorem C3_witness :
    (2 : ℝ) ≤ camW.hw_exp_max ∧ (2 : ℤ) = py_int 2 ∧
      (2 : ℝ) = min camW.hw_exp_max
        ((py_int (if (2 : ℝ) ≤ 1 then
          log_map_0_1 2 (max camW.hw_exp_min (argsStd 1).exp_min)
            (min camW.hw_exp_max (argsStd 1).exp_max) else 2) : ℤ) : ℝ) :=
  C3_applied_never_exceeds_hw_max camW (argsStd 1) false 2 2 2 1 (by
    rw [configure_exposure_spec camW (argsStd 1) 2 rfl rfl]
    have h2 : py_int (2 : ℝ) = 2 := py_int_eq_of_int (by norm_num)
    have hx : ¬ ((2 : ℝ) ≤ 1) := by norm_num
    simp only [hx, if_false, h2]
    have hmin : min camW.hw_exp_max (((2 : ℤ) : ℤ) : ℝ) = 2 := by
      simp [camW]; norm_num
    rw [hmin, h2])

/-- `configure_exposure` never reads `args.gain`. -/
theorem configure_exposure_gain_irrel (cam : Cam) (args : Args) (g : ℝ)
    (raises : Bool) (x : ℝ) :
    configure_exposure cam { args with gain := g } raises x =
      configure_exposure cam args raises x := rfl

/-- One capture iteration never reads `args.gain`. -/
theorem frame_events_gain_irrel (cam : Cam) (args : Args) (g : ℝ) (t : ℤ)
    (i : ℕ) (fe : FrameEnv) :
    frame_events cam { args with gain := g } t i fe =
      frame_events cam args t i fe := rfl

/-- The capture loop never reads `args.gain`. -/
theorem capture_loop_gain_irrel (cam : Cam) (args : Args) (g : ℝ) (t : ℤ)
    (fes : ℕ → FrameEnv) (n : ℕ) :
    capture_loop cam { args with gain := g } t fes n =
      capture_loop cam args t fes n := by
  induction n with
  | zero => rfl
  | succ k ih =>
    simp only [capture_loop, ih, frame_events_gain_irrel]

/-- The whole run never reads `args.gain`. -/
theorem program_gain_irrel (pre : List (List Char)) (numCameras : ℕ)
    (cam : Cam) (args : Args) (g : ℝ) (fes : ℕ → FrameEnv) :
    program pre numCameras cam { args with gain := g } fes =
      program pre numCameras cam args fes := by
  have hacq : acquire_images cam { args with gain := g } fes =
      acquire_images cam args fes := by
    simp only [acquire_images, capture_loop_gain_irrel]
  have hrun : run_single_camera cam { args with gain := g } fes =
      run_single_camera cam args fes := by
    simp only [run_single_camera, hacq]
  have hmain : main_run numCameras cam { args with gain := g } fes =
      main_run numCameras cam args fes := by
    simp only [main_run, hrun]
  simp only [program, hmain]

/-- C9: the `--gain` flag has no influence: two runs differing only in the
gain argument produce identical traces and exit codes, and whenever
`configure_exposure` succeeds the gain applied to the camera is the fixed
value `1` (HDR.py line 111), never `args.gain`. -/
theorem C9_gain_flag_has_no_influence (pre : List (List Char))
    (numCameras : ℕ) (cam : Cam) (args : Args) (fes : ℕ → FrameEnv) (g : ℝ)
    (raises : Bool) (x : ℝ) (v : ℤ) (s gv : ℝ) :
    program pre numCameras cam { args with gain := g } fes =
        program pre numCameras cam args fes ∧
      configure_exposure cam { args with gain := g } raises x =
        configure_exposure cam args raises x ∧
      (configure_exposure cam args raises x = ConfigResult.applied v s gv →
        gv = 1) :=
  ⟨program_gain_irrel pre numCameras cam args g fes,
    configure_exposure_gain_irrel cam args g raises x,
    fun h => (configure_exposure_applied_inv cam args raises x v s gv h).2.2.2.1⟩

/-- Witness for C9: on the concrete camera, a run with `--gain 5` has the
same trace and exit code as a run with `--gain 1`, and the concrete
successful configuration applies gain `1`. -/
theorem C9_witness :
    program [] 1 camW { argsStd 1 with gain := 5 } fes0 =
        program [] 1 camW (argsStd 1) fes0 ∧ (1 : ℝ) = 1 :=
  ⟨(C9_gain_flag_has_no_influence [] 1 camW (argsStd 1) fes0 5 false (3 / 2)
      1 1 1).1,
    (C9_gain_flag_has_no_influence [] 1 camW (argsStd 1) fes0 5 false (3 / 2)
      1 1 1).2.2 (by
        rw [configure_exposure_spec camW (argsStd 1) (3 / 2) rfl rfl]
        have hx : ¬ ((3 / 2 : ℝ) ≤ 1) := by norm_num
        have h32 : py_int ((3 : ℝ) / 2) = 1 :=
          py_int_eq_of_bounds (by norm_num) (by norm_num) (by norm_num)
        simp only [hx, if_false, h32]
        have hmin : min camW.hw_exp_max (((1 : ℤ) : ℤ) : ℝ) = 1 := by
          norm_num [camW]
        rw [hmin]
        have h1 : py_int (1 : ℝ) = 1 := py_int_eq_of_int (by norm_num)
        rw [h1])⟩

/-- The failure filename built by the capture loop. -/
theorem filename_of_failed :
    filename_of ConfigResult.failed = "exp_False_us.jpg".data := by decide

/-- C10: a caught vendor exception makes `configure_exposure` return the
boolean `False`; the loop still saves the frame under
`exp_False_us.jpg`, whose exposure field the fusion phase cannot parse as a
number, so the later fusion phase aborts. -/
theorem C10_false_filename_aborts_fusion (cam : Cam) (args : Args) (x : ℝ)
    (t : ℤ) (i : ℕ) :
    configure_exposure cam args true x = ConfigResult.failed ∧
      filename_of ConfigResult.failed = "exp_False_us.jpg".data ∧
      parse_time ("exp_False_us.jpg".data) = none ∧
      (frame_events cam args t i ⟨true, false, false⟩).1 =
        [Ev.getNext t, Ev.getNext t, Ev.getNext t,
          Ev.save ("exp_False_us.jpg".data)] ∧
      create_HDR_ok ["exp_464_us.jpg".data, "exp_False_us.jpg".data] = false := by
  refine ⟨rfl, filename_of_failed, by decide, ?_, by decide⟩
  simp only [frame_events, configure_exposure, if_true, Bool.false_eq_true,
    if_false, filename_of_failed, List.nil_append]

/-- `100^(1/3)` lies in `[4.64, 4.65)`. -/
theorem rpow_third_bounds :
    (464 / 100 : ℝ) ≤ (100 : ℝ) ^ ((1 : ℝ) / 3) ∧
      (100 : ℝ) ^ ((1 : ℝ) / 3) < 465 / 100 := by
  have ht0 : (0 : ℝ) ≤ (100 : ℝ) ^ ((1 : ℝ) / 3) :=
    Real.rpow_nonneg (by norm_num) _
  have ht3 : ((100 : ℝ) ^ ((1 : ℝ) / 3)) ^ (3 : ℕ) = 100 := by
    rw [← Real.rpow_natCast ((100 : ℝ) ^ ((1 : ℝ) / 3)) 3,
      ← Real.rpow_mul (by norm_num : (0 : ℝ) ≤ 100)]
    norm_num
  constructor
  · have h : ((464 : ℝ) / 100) ^ (3 : ℕ) ≤
        ((100 : ℝ) ^ ((1 : ℝ) / 3)) ^ (3 : ℕ) := by rw [ht3]; norm_num
    exact (pow_le_pow_iff_left₀ (by norm_num) ht0 (by norm_num)).mp h
  · have h : ((100 : ℝ) ^ ((1 : ℝ) / 3)) ^ (3 : ℕ) <
        ((465 : ℝ) / 100) ^ (3 : ℕ) := by rw [ht3]; norm_num
    exact (pow_lt_pow_iff_left₀ ht0 (by norm_num) (by norm_num)).mp h

/-- `100^(2/3)` lies in `[21.54, 21.55)`. -/
theorem rpow_twothirds_bounds :
    (2154 / 100 : ℝ) ≤ (100 : ℝ) ^ ((2 : ℝ) / 3) ∧
      (100 : ℝ) ^ ((2 : ℝ) / 3) < 2155 / 100 := by
  have ht0 : (0 : ℝ) ≤ (100 : ℝ) ^ ((2 : ℝ) / 3) :=
    Real.rpow_nonneg (by norm_num) _
  have h2 : (100 : ℝ) ^ ((2 : ℕ) : ℝ) = 10000 := by
    rw [Real.rpow_natCast]; norm_num
  have ht3 : ((100 : ℝ) ^ ((2 : ℝ) / 3)) ^ (3 : ℕ) = 10000 := by
    rw [← Real.rpow_natCast ((100 : ℝ) ^ ((2 : ℝ) / 3)) 3,
      ← Real.rpow_mul (by norm_num : (0 : ℝ) ≤ 100)]
    rw [show (2 : ℝ) / 3 * ((3 : ℕ) : ℝ) = ((2 : ℕ) : ℝ) by push_cast; ring]
    exact h2
  constructor
  · have h : ((2154 : ℝ) / 100) ^ (3 : ℕ) ≤
        ((100 : ℝ) ^ ((2 : ℝ) / 3)) ^ (3 : ℕ) := by rw [ht3]; norm_num
    exact (pow_le_pow_iff_left₀ (by norm_num) ht0 (by norm_num)).mp h
  · have h : ((100 : ℝ) ^ ((2 : ℝ) / 3)) ^ (3 : ℕ) <
        ((2155 : ℝ) / 100) ^ (3 : ℕ) := by rw [ht3]; norm_num
    exact (pow_lt_pow_iff_left₀ ht0 (by norm_num) (by norm_num)).mp h

/-- Truncating the exposure mapping on the schedule point `x = 1/3` with
bounds `[100, 10000]` gives `464`. -/
theorem py_int_log_map_third : py_int (log_map_0_1 (1 / 3) 100 10000) = 464 := by
  have hl : log_map_0_1 (1 / 3) 100 10000 = 100 * (100 : ℝ) ^ ((1 : ℝ) / 3) := by
    unfold log_map_0_1; norm_num
  obtain ⟨h1, h2⟩ := rpow_third_bounds
  exact py_int_eq_of_bounds (by norm_num)
    (by rw [hl]; push_cast; linarith) (by rw [hl]; push_cast; linarith)

/-- Truncating the exposure mapping on the schedule point `x = 2/3` with
bounds `[100, 10000]` gives `2154`. -/
theorem py_int_log_map_twothirds :
    py_int (log_map_0_1 (2 / 3) 100 10000) = 2154 := by
  have hl : log_map_0_1 (2 / 3) 100 10000 = 100 * (100 : ℝ) ^ ((2 : ℝ) / 3) := by
    unfold log_map_0_1; norm_num
  obtain ⟨h1, h2⟩ := rpow_twothirds_bounds
  exact py_int_eq_of_bounds (by norm_num)
    (by rw [hl]; push_cast; linarith) (by rw [hl]; push_cast; linarith)

/-- The exposure mapping at the top schedule point `x = 1` is exactly the
upper bound. -/
theorem log_map_at_one (m M : ℝ) (hm : m ≠ 0) : log_map_0_1 1 m M = M := by
  unfold log_map_0_1
  rw [Real.rpow_one]
  field_simp

/-- C2: the exposure mapping attains the upper endpoint exactly
(`f(1) = exp_max`) and tends to `exp_min` as `x → 0`; on the capture loop's
schedule `x = 1/3, 2/3, 3/3` with working bounds `[100, 10000]` and three
images, `configure_exposure` produces the truncated integer exposures
`464`, `2154` and `10000`. -/
theorem C2_endpoints_and_schedule (m M : ℝ) (hm : 0 < m) (hmM : m < M) :
    log_map_0_1 1 m M = M ∧
      Filter.Tendsto (fun x => log_map_0_1 x m M) (nhds 0) (nhds m) ∧
      (configure_exposure camW (argsStd 3) false (schedule 3 0) =
          ConfigResult.applied 464 464 1 ∧
        configure_exposure camW (argsStd 3) false (schedule 3 1) =
          ConfigResult.applied 2154 2154 1 ∧
        configure_exposure camW (argsStd 3) false (schedule 3 2) =
          ConfigResult.applied 10000 10000 1) := by
  have hb : max camW.hw_exp_min (argsStd 3).exp_min = (100 : ℝ) := by
    norm_num [camW, argsStd]
  have hB : min camW.hw_exp_max (argsStd 3).exp_max = (10000 : ℝ) := by
    norm_num [camW, argsStd]
  refine ⟨log_map_at_one m M hm.ne', ?_, ?_, ?_, ?_⟩
  · have hc : ContinuousAt (fun x : ℝ => log_map_0_1 x m M) 0 := by
      have hMm : M / m ≠ 0 := ne_of_gt (div_pos (hm.trans hmM) hm)
      exact (Real.continuousAt_const_rpow hMm).const_mul m
    have h0 : log_map_0_1 0 m M = m := by
      unfold log_map_0_1; rw [Real.rpow_zero]; ring
    simpa [h0] using hc.tendsto
  · rw [show schedule 3 0 = (1 : ℝ) / 3 by norm_num [schedule],
      configure_exposure_spec camW (argsStd 3) _ rfl rfl, hb, hB,
      if_pos (by norm_num : (1 : ℝ) / 3 ≤ 1), py_int_log_map_third,
      show min camW.hw_exp_max (((464 : ℤ) : ℤ) : ℝ) = ((464 : ℤ) : ℝ) by
        norm_num [camW],
      py_int_intCast]
    norm_num
  · rw [show schedule 3 1 = (2 : ℝ) / 3 by norm_num [schedule],
      configure_exposure_spec camW (argsStd 3) _ rfl rfl, hb, hB,
      if_pos (by norm_num : (2 : ℝ) / 3 ≤ 1), py_int_log_map_twothirds,
      show min camW.hw_exp_max (((2154 : ℤ) : ℤ) : ℝ) = ((2154 : ℤ) : ℝ) by
        norm_num [camW],
      py_int_intCast]
    norm_num
  · rw [show schedule 3 2 = (1 : ℝ) by norm_num [schedule],
      configure_exposure_spec camW (argsStd 3) _ rfl rfl, hb, hB,
      if_pos (by norm_num : (1 : ℝ) ≤ 1),
      show py_int (log_map_0_1 1 100 10000) = 10000 by
        rw [log_map_at_one 100 10000 (by norm_num)]
        exact py_int_eq_of_int (by norm_num),
      show min camW.hw_exp_max (((10000 : ℤ) : ℤ) : ℝ) = ((10000 : ℤ) : ℝ) by
        norm_num [camW],
      py_int_intCast]
    norm_num

/-- Witness for C2 at `exp_min = 100`, `exp_max = 10000`. -/
theorem C2_witness :
    ((0 : ℝ) < 100 ∧ (100 : ℝ) < 10000) ∧
      log_map_0_1 1 100 10000 = 10000 ∧
      Filter.Tendsto (fun x => log_map_0_1 x 100 10000) (nhds 0) (nhds 100) :=
  ⟨⟨by norm_num, by norm_num⟩,
    (C2_endpoints_and_schedule 100 10000 (by norm_num) (by norm_num)).1,
    (C2_endpoints_and_schedule 100 10000 (by norm_num) (by norm_num)).2.1⟩

/-- Every character of `natChars n` is a decimal digit, and in particular
is neither the separator `'_'` nor `'.'`. -/
theorem natChars_props (n : ℕ) :
    ∀ c ∈ natChars n, c.isDigit = true ∧ c ≠ '_' ∧ c ≠ '.' := by
  intro c hc
  unfold natChars at hc
  by_cases h0 : n = 0
  · rw [h0] at hc
    simp at hc
    subst hc
    refine ⟨by decide, by decide, by decide⟩
  · rw [if_neg h0] at hc
    rw [List.mem_reverse, List.mem_map] at hc
    obtain ⟨d, hd, rfl⟩ := hc
    have hd10 : d < 10 := Nat.digits_lt_base (by norm_num) hd
    interval_cases d <;> exact ⟨by decide, by decide, by decide⟩

/-- `natChars n` is never the empty string. -/
theorem natChars_ne_nil (n : ℕ) : natChars n ≠ [] := by
  unfold natChars
  by_cases h0 : n = 0
  · simp [h0]
  · rw [if_neg h0]
    simp [Nat.digits_ne_nil_iff_ne_zero.mpr h0]

/-- Parsing the decimal rendering of `n` recovers `n`. -/
theorem pyFloatDigits_natChars (n : ℕ) : pyFloatDigits (natChars n) = some n := by
  unfold pyFloatDigits
  rw [if_pos ⟨natChars_ne_nil n, fun c hc => (natChars_props n c hc).1⟩]
  by_cases h0 : n = 0
  · subst h0; rfl
  · congr 1
    unfold natChars
    rw [if_neg h0, List.map_reverse, List.reverse_reverse, List.map_map]
    rw [show charVal ∘ digitChar = fun d => charVal (digitChar d) from rfl]
    rw [List.map_congr_left (fun d hd => ?_), List.map_id,
      Nat.ofDigits_digits 10 n]
    have hd10 : d < 10 := Nat.digits_lt_base (by norm_num) hd
    show charVal (digitChar d) = d
    interval_cases d <;> decide

/-- `splitGo` on a chunk free of the separator yields a single field. -/
theorem splitGo_no_sep (sep : Char) (l : List Char) (acc : List Char)
    (h : ∀ c ∈ l, c ≠ sep) : splitGo sep l acc = [acc.reverse ++ l] := by
  induction l generalizing acc with
  | nil => simp [splitGo]
  | cons c cs ih =>
    have hc : c ≠ sep := h c (by simp)
    rw [splitGo, if_neg hc, ih (c :: acc) (fun d hd => h d (by simp [hd]))]
    simp

/-- `splitGo` splits off the field before the first separator. -/
theorem splitGo_sep (sep : Char) (l r : List Char) (acc : List Char)
    (h : ∀ c ∈ l, c ≠ sep) :
    splitGo sep (l ++ sep :: r) acc = (acc.reverse ++ l) :: splitGo sep r [] := by
  induction l generalizing acc with
  | nil => simp [splitGo]
  | cons c cs ih =>
    have hc : c ≠ sep := h c (by simp)
    rw [List.cons_append, splitGo, if_neg hc,
      ih (c :: acc) (fun d hd => h d (by simp [hd]))]
    simp

/-- Round-trip for successful frames: the integer that `configure_exposure`
returned, rendered into `exp_<v>_us.jpg` and parsed back by the fusion
phase, comes back unchanged. -/
theorem parse_time_roundtrip (v : ℤ) (s g : ℝ) (hv : 0 ≤ v) :
    parse_time (filename_of (ConfigResult.applied v s g)) = some v.toNat := by
  have hshape : filename_of (ConfigResult.applied v s g) =
      ['e', 'x', 'p'] ++ '_' ::
        (natChars v.toNat ++ '_' :: ['u', 's', '.', 'j', 'p', 'g']) := by
    have hneg : ¬ v < 0 := not_lt.mpr hv
    simp [filename_of, intChars, hneg]
  rw [parse_time, hshape]
  simp only [pySplit]
  rw [splitGo_sep '_' ['e', 'x', 'p'] _ [] (by decide),
    splitGo_sep '_' (natChars v.toNat) _ []
      (fun c hc => (natChars_props v.toNat c hc).2.1),
    splitGo_no_sep '_' ['u', 's', '.', 'j', 'p', 'g'] [] (by decide)]
  simp only [List.reverse_nil, List.nil_append, List.getD_cons_succ,
    List.getD_cons_zero]
  rw [splitGo_no_sep '.' (natChars v.toNat) []
    (fun c hc => (natChars_props v.toNat c hc).2.2)]
  simp only [List.reverse_nil, List.nil_append, List.getD_cons_zero]
  exact pyFloatDigits_natChars v.toNat

/-- C4 fails on the code: with a fractional hardware maximum (`99.5` µs)
and working bounds that cross (`exp_min = 1000 > exp_max = 10`), the frame
at schedule point `x = 1/2` gets the sensor value `99.5` applied, but its
filename encodes `int(99.5) = 99`, so the value parsed back by the fusion
phase differs from the value actually applied to the sensor. -/
theorem C4_counterexample :
    configure_exposure cam4 args4 false (schedule 2 0) =
        ConfigResult.applied 99 (199 / 2) 1 ∧
      parse_time (filename_of (ConfigResult.applied 99 (199 / 2) 1)) =
        some 99 ∧
      ((99 : ℕ) : ℝ) ≠ 199 / 2 := by
  refine ⟨?_, ?_, by norm_num⟩
  · rw [show schedule 2 0 = (1 : ℝ) / 2 by norm_num [schedule],
      configure_exposure_spec cam4 args4 _ rfl rfl]
    have hb : max cam4.hw_exp_min args4.exp_min = (1000 : ℝ) := by
      norm_num [cam4, camW, args4]
    have hB : min cam4.hw_exp_max args4.exp_max = (10 : ℝ) := by
      norm_num [cam4, camW, args4]
    rw [hb, hB, if_pos (by norm_num : (1 : ℝ) / 2 ≤ 1)]
    have hl : log_map_0_1 ((1 : ℝ) / 2) 1000 10 = 100 := by
      unfold log_map_0_1
      rw [show (10 : ℝ) / 1000 = ((1 : ℝ) / 10) ^ (2 : ℕ) by norm_num,
        ← Real.rpow_natCast ((1 : ℝ) / 10) 2,
        ← Real.rpow_mul (by norm_num : (0 : ℝ) ≤ 1 / 10)]
      norm_num [Real.rpow_one]
    rw [hl, py_int_eq_of_int (by norm_num : (100 : ℝ) = ((100 : ℤ) : ℝ))]
    have hmin : min cam4.hw_exp_max (((100 : ℤ) : ℤ) : ℝ) = 199 / 2 := by
      norm_num [cam4, camW]
    rw [hmin, show py_int ((199 : ℝ) / 2) = 99 from
      py_int_eq_of_bounds (by norm_num) (by norm_num) (by norm_num)]
  · rw [parse_time_roundtrip 99 (199 / 2) 1 (by norm_num)]
    decide

/-- C4 amended: for every successfully configured frame with a nonnegative
applied exposure, the value parsed back from the filename equals `int()` of
the exposure actually applied to the sensor; whenever the applied exposure
is integral — in particular whenever the computed exposure did not exceed
the hardware maximum — the parsed value equals the applied value exactly. -/
theorem C4_parse_eq_truncated_applied (cam : Cam) (args : Args)
    (raises : Bool) (x : ℝ) (v : ℤ) (s g : ℝ)
    (h : configure_exposure cam args raises x = ConfigResult.applied v s g)
    (hs : 0 ≤ s) :
    parse_time (filename_of (ConfigResult.applied v s g)) =
        some (py_int s).toNat ∧
      (∀ k : ℤ, s = (k : ℝ) → (((py_int s).toNat : ℕ) : ℝ) = s) := by
  obtain ⟨-, -, -, -, hv, -⟩ :=
    configure_exposure_applied_inv cam args raises x v s g h
  have hv0 : 0 ≤ v := by
    rw [hv, py_int_of_nonneg hs]
    exact Int.floor_nonneg.mpr hs
  constructor
  · rw [hv]
    exact parse_time_roundtrip _ s g (hv ▸ hv0)
  · intro k hk
    have hpk : py_int s = k := py_int_eq_of_int hk
    have hk0 : 0 ≤ k := hpk ▸ (hv ▸ hv0)
    rw [hpk, hk]
    exact_mod_cast Int.toNat_of_nonneg hk0

/-- Witness for C4 (amended) at a concrete successful configuration. -/
theorem C4_witness :
    parse_time (filename_of (ConfigResult.applied 2 2 1)) =
        some (py_int 2).toNat ∧
      (∀ k : ℤ, (2 : ℝ) = (k : ℝ) → (((py_int 2).toNat : ℕ) : ℝ) = 2) :=
  C4_parse_eq_truncated_applied camW (argsStd 1) false 2 2 2 1 (by
    rw [configure_exposure_spec camW (argsStd 1) 2 rfl rfl]
    have h2 : py_int (2 : ℝ) = 2 := py_int_eq_of_int (by norm_num)
    have hx : ¬ ((2 : ℝ) ≤ 1) := by norm_num
    simp only [hx, if_false, h2]
    have hmin : min camW.hw_exp_max (((2 : ℤ) : ℤ) : ℝ) = 2 := by
      norm_num [camW]
    rw [hmin, h2]) (by norm_num)

/-- C5 fails on the code: with zero cameras detected the process does exit
with status 1, but the `__main__` block has already created the output
directory and deleted the pre-existing file `old.jpg` inside it before
camera detection, so filesystem writes under the output directory do
occur. -/
theorem C5_counterexample :
    (program ["old.jpg".data] 0 camW (argsStd 3) fes0).2 = 1 ∧
      Ev.removeFile ("old.jpg".data) ∈
        (program ["old.jpg".data] 0 camW (argsStd 3) fes0).1 := by
  constructor <;> simp [program, main_run]

/-- C5 amended: with zero cameras detected the process exits with status 1
and the only filesystem operations under the output directory are the
pre-capture ones: the directory creation and the deletion of every
pre-existing file — no frame is saved and no fusion output is written. -/
theorem C5_exit1_after_unconditional_wipe (preFiles : List (List Char))
    (cam : Cam) (args : Args) (fes : ℕ → FrameEnv) :
    program preFiles 0 cam args fes =
      (Ev.mkdirOut :: preFiles.map Ev.removeFile, 1) := by
  simp [program, main_run]

/-- The pre-loop `GetNextImage` timeout on the concrete camera, whose
exposure reads `5000` µs before the loop: `int(5000/1000 + 1000) = 1005`. -/
theorem camW_timeout : py_int (camW.cur_exposure / 1000 + 1000) = 1005 := by
  rw [show camW.cur_exposure / 1000 + 1000 = (1005 : ℝ) by norm_num [camW]]
  exact py_int_eq_of_int (by norm_num)

/-- Frame 0 of a 1-image run on the concrete camera is configured to
`10000` µs (the top of the working range). -/
theorem configure_camW_one :
    configure_exposure camW (argsStd 1) false (schedule 1 0) =
      ConfigResult.applied 10000 10000 1 := by
  rw [show schedule 1 0 = (1 : ℝ) by norm_num [schedule],
    configure_exposure_spec camW (argsStd 1) _ rfl rfl,
    show max camW.hw_exp_min (argsStd 1).exp_min = (100 : ℝ) by
      norm_num [camW, argsStd],
    show min camW.hw_exp_max (argsStd 1).exp_max = (10000 : ℝ) by
      norm_num [camW, argsStd],
    if_pos (le_refl (1 : ℝ)),
    show py_int (log_map_0_1 1 100 10000) = 10000 by
      rw [log_map_at_one 100 10000 (by norm_num)]
      exact py_int_eq_of_int (by norm_num),
    show min camW.hw_exp_max (((10000 : ℤ) : ℤ) : ℝ) = ((10000 : ℤ) : ℝ) by
      norm_num [camW],
    py_int_intCast]
  norm_num

/-- A fully successful iteration: one sensor write, three blocking
next-frame calls, one save — in that order. -/
theorem frame_events_ok (cam : Cam) (args : Args) (t : ℤ) (i : ℕ)
    (v : ℤ) (s gn : ℝ)
    (hcfg : configure_exposure cam args false (schedule args.num_images i) =
      ConfigResult.applied v s gn) :
    frame_events cam args t i ⟨false, false, false⟩ =
      ([Ev.setExposure s, Ev.getNext t, Ev.getNext t, Ev.getNext t,
        Ev.save (filename_of (ConfigResult.applied v s gn))], true) := by
  simp [frame_events, hcfg]

/-- The event trace of the 1-image run on the concrete camera. -/
theorem acquire_camW_one_trace :
    (acquire_images camW (argsStd 1) fes0).1 =
      [Ev.setExposure 10000, Ev.getNext 1005, Ev.getNext 1005,
        Ev.getNext 1005,
        Ev.save (filename_of (ConfigResult.applied 10000 10000 1))] := by
  have hacq : acquire_images camW (argsStd 1) fes0 =
      capture_loop camW (argsStd 1) 1005 fes0 1 := by
    show capture_loop camW (argsStd 1)
        (py_int (camW.cur_exposure / 1000 + 1000)) fes0
        (argsStd 1).num_images = _
    rw [camW_timeout]
    rfl
  have hfe : frame_events camW (argsStd 1) 1005 0 (fes0 0) =
      ([Ev.setExposure 10000, Ev.getNext 1005, Ev.getNext 1005,
        Ev.getNext 1005,
        Ev.save (filename_of (ConfigResult.applied 10000 10000 1))], true) := by
    have h1 : configure_exposure camW (argsStd 1) false
        (schedule (argsStd 1).num_images 0) =
        ConfigResult.applied 10000 10000 1 := by
      rw [show (argsStd 1).num_images = 1 from rfl]
      exact configure_camW_one
    exact frame_events_ok camW (argsStd 1) 1005 0 10000 10000 1 h1
  rw [hacq]
  show ((capture_loop camW (argsStd 1) 1005 fes0 0).1 ++
      (frame_events camW (argsStd 1) 1005 0 (fes0 0)).1) = _
  rw [hfe]
  rfl

/-- Any `GetNextImage` event of one iteration carries the iteration's
`timeout` argument. -/
theorem frame_events_getNext_timeout (cam : Cam) (args : Args) (t0 t : ℤ)
    (i : ℕ) (fe : FrameEnv)
    (h : Ev.getNext t ∈ (frame_events cam args t0 i fe).1) : t = t0 := by
  cases hcfg : configure_exposure cam args fe.cfg_raises
      (schedule args.num_images i) <;>
    cases hg : fe.get_raises <;> cases hi : fe.incomplete <;>
      simp [frame_events, hcfg, hg, hi] at h <;> tauto

/-- Any `GetNextImage` event of the whole capture loop carries the single
timeout the loop was started with. -/
theorem capture_loop_getNext_timeout (cam : Cam) (args : Args) (t0 t : ℤ)
    (fes : ℕ → FrameEnv) (n : ℕ)
    (h : Ev.getNext t ∈ (capture_loop cam args t0 fes n).1) : t = t0 := by
  induction n with
  | zero => simp [capture_loop] at h
  | succ k ih =>
    simp only [capture_loop, List.mem_append] at h
    rcases h with h | h
    · exact ih h
    · exact frame_events_getNext_timeout cam args t0 t k (fes k) h

/-- C6 fails on the code: frame 0 of the concrete 1-image run is configured
to `10000` µs, so a timeout derived from that frame's exposure would be
`int(10000/1000 + 1000) = 1010` ms, yet the trace's blocking wait uses
`1005` ms — the timeout computed once before the loop from the exposure
(`5000` µs) current at that earlier moment. -/
theorem C6_counterexample :
    configure_exposure camW (argsStd 1) false (schedule 1 0) =
        ConfigResult.applied 10000 10000 1 ∧
      Ev.getNext 1005 ∈ (acquire_images camW (argsStd 1) fes0).1 ∧
      py_int ((10000 : ℝ) / 1000 + 1000) = 1010 ∧ (1005 : ℤ) ≠ 1010 := by
  refine ⟨configure_camW_one, ?_, ?_, by decide⟩
  · rw [acquire_camW_one_trace]; simp
  · rw [show (10000 : ℝ) / 1000 + 1000 = (1010 : ℝ) by norm_num]
    exact py_int_eq_of_int (by norm_num)

/-- C6 amended: every frame's blocking wait is bounded by one and the same
timeout, computed before the loop as `int(exposure/1000 + 1000)` ms from
the exposure time read at that point — not from the exposure configured
for the individual frame. -/
theorem C6_timeout_computed_once_before_loop (cam : Cam) (args : Args)
    (fes : ℕ → FrameEnv) (t : ℤ)
    (h : Ev.getNext t ∈ (acquire_images cam args fes).1) :
    t = py_int (cam.cur_exposure / 1000 + 1000) := by
  unfold acquire_images at h
  rcases ha : cam.acq_mode_rw <;> rw [ha] at h
  · simp at h
  · rcases hb : (cam.exposure_time_rw || cam.exposure_time_readable) <;>
      rw [hb] at h
    · simp at h
    · exact capture_loop_getNext_timeout cam args _ t fes args.num_images
        (by simpa using h)

/-- Witness for C6 (amended) on the concrete 1-image run. -/
theorem C6_witness :
    Ev.getNext 1005 ∈ (acquire_images camW (argsStd 1) fes0).1 ∧
      (1005 : ℤ) = py_int (camW.cur_exposure / 1000 + 1000) := by
  have hmem : Ev.getNext 1005 ∈ (acquire_images camW (argsStd 1) fes0).1 := by
    rw [acquire_camW_one_trace]; simp
  exact ⟨hmem,
    C6_timeout_computed_once_before_loop camW (argsStd 1) fes0 1005 hmem⟩

/-- C7 fails on the code: the single iteration of the concrete 1-image run
performs THREE blocking next-frame requests, not one — the first two
results are discarded. -/
theorem C7_counterexample :
    ((acquire_images camW (argsStd 1) fes0).1.countP is_getNext) = 3 ∧
      (3 : ℕ) ≠ 1 := by
  rw [acquire_camW_one_trace]
  exact ⟨rfl, by decide⟩

/-- C7 amended: the capture loop is strictly sequential (its side effects
form one linear trace), but each iteration issues exactly THREE blocking
next-frame requests, discarding the first two results; the frame, if
persisted at all, is persisted after those requests and before the next
iteration begins. -/
theorem C7_three_sequential_requests_per_iteration (cam : Cam) (args : Args)
    (t : ℤ) (i : ℕ) (fe : FrameEnv) (h : fe.get_raises = false) :
    ∃ l, (frame_events cam args t i fe).1 =
        l ++ (if fe.incomplete then [] else
          [Ev.save (filename_of (configure_exposure cam args fe.cfg_raises
            (schedule args.num_images i)))]) ∧
      l.countP is_getNext = 3 ∧
      l.all (fun e => !(is_save e)) = true := by
  cases hcfg : configure_exposure cam args fe.cfg_raises
      (schedule args.num_images i) with
  | applied v s gn =>
    cases hi : fe.incomplete with
    | false =>
      exact ⟨[Ev.setExposure s, Ev.getNext t, Ev.getNext t, Ev.getNext t],
        by simp [frame_events, hcfg, h, hi], rfl, rfl⟩
    | true =>
      exact ⟨[Ev.setExposure s, Ev.getNext t, Ev.getNext t, Ev.getNext t],
        by simp [frame_events, hcfg, h, hi], rfl, rfl⟩
  | failed =>
    cases hi : fe.incomplete with
    | false =>
      exact ⟨[Ev.getNext t, Ev.getNext t, Ev.getNext t],
        by simp [frame_events, hcfg, h, hi], rfl, rfl⟩
    | true =>
      exact ⟨[Ev.getNext t, Ev.getNext t, Ev.getNext t],
        by simp [frame_events, hcfg, h, hi], rfl, rfl⟩

/-- Witness for C7 (amended) at the concrete iteration. -/
theorem C7_witness :
    ∃ l, (frame_events camW (argsStd 1) 1005 0
          (⟨false, false, false⟩ : FrameEnv)).1 =
        l ++ (if (⟨false, false, false⟩ : FrameEnv).incomplete then [] else
          [Ev.save (filename_of (configure_exposure camW (argsStd 1)
            (⟨false, false, false⟩ : FrameEnv).cfg_raises
            (schedule (argsStd 1).num_images 0)))]) ∧
      l.countP is_getNext = 3 ∧
      l.all (fun e => !(is_save e)) = true :=
  C7_three_sequential_requests_per_iteration camW (argsStd 1) 1005 0
    ⟨false, false, false⟩ rfl

/-- C8: `reset_exposure` is invoked at the end of every capture session,
whatever the per-frame vendor failures were: the run's trace is always the
capture trace followed by the reset event, and per-frame failures only
lower the aggregated boolean result flag. -/
theorem C8_reset_always_invoked (cam : Cam) (args : Args)
    (fes : ℕ → FrameEnv) (h : cam.init_raises = false) :
    (run_single_camera cam args fes).1 =
        (acquire_images cam args fes).1 ++ [Ev.resetExposure] ∧
      (run_single_camera cam args fes).2 =
        (cam.device_info_ok && (acquire_images cam args fes).2 &&
          cam.reset_ok) := by
  unfold run_single_camera
  rw [h]
  exact ⟨rfl, rfl⟩

/-- Witness for C8 on the concrete camera with a failing frame 0. -/
theorem C8_witness :
    camW.init_raises = false ∧
      (run_single_camera camW (argsStd 2) fesFail).1 =
        (acquire_images camW (argsStd 2) fesFail).1 ++ [Ev.resetExposure] :=
  ⟨rfl, (C8_reset_always_invoked camW (argsStd 2) fesFail rfl).1⟩

end HDR
